import Mathlib

/-!
A verification development for the TacRaven blog content pipeline.

The Python scripts under scripts/ (auto_scheduler.py, update_manifest.py)
and .github/workflows/patch_posts.py are shallowly embedded below: pure
functions become Lean functions, the stateful scheduler becomes explicit
state passing, file-system effects become an explicit list of write events,
machine integers become Nat/Int with explicit wrapping, and the random
choices made via random.random / random.choice become explicit parameters,
so that theorems quantify over every possible random outcome.
-/


/-! ## Basic Python string helpers (str.lower, str.title, str.strip,
`in` substring test, str.replace) modelled over Lean strings. -/

/-- Python str.lower for the ASCII range (all strings in this code base are
ASCII apart from an em dash, which both languages leave unchanged). -/
def pyLower (s : String) : String :=
  String.mk (s.data.map Char.toLower)

/-- Helper for `pyTitle`: walks the characters tracking whether the previous
character was alphabetic (Python title-cases the first cased character of
every run of cased characters). -/
def pyTitleGo : Bool → List Char → List Char
  | _, [] => []
  | prevAlpha, c :: cs =>
    if c.isAlpha then
      (if prevAlpha then c.toLower else c.toUpper) :: pyTitleGo true cs
    else
      c :: pyTitleGo false cs

/-- Python str.title for ASCII strings: e.g. "AI".title() = "Ai". -/
def pyTitle (s : String) : String :=
  String.mk (pyTitleGo false s.data)

/-- Python whitespace class (the characters matched by str.strip and
regex \s in the ASCII range). -/
def isPyWs (c : Char) : Bool :=
  c = ' ' || c = '\t' || c = '\n' || c = '\r' || c = '\x0b' || c = '\x0c'

/-- Python str.strip (both ends, default whitespace). -/
def pyStrip (s : String) : String :=
  String.mk (((s.data.dropWhile isPyWs).reverse.dropWhile isPyWs).reverse)

/-- Does `needle` occur as a contiguous substring of `hay` starting at
some offset?  Models Python's `needle in hay`. -/
def subAt (hay needle : List Char) (i : Nat) : Bool :=
  ((hay.drop i).take needle.length) == needle

/-- Python `needle in hay` (substring containment). -/
def pyContains (hay needle : String) : Bool :=
  (List.range (hay.data.length + 1)).any (fun i => subAt hay.data needle.data i)

/-- One step of Python str.replace: scans left to right, replacing each
non-overlapping occurrence.  `fuel` bounds the scan by the input length. -/
def pyReplaceGo (old new : List Char) : Nat → List Char → List Char
  | _, [] => []
  | 0, s => s
  | fuel + 1, s@(c :: cs) =>
    if subAt s old 0 then
      new ++ pyReplaceGo old new fuel (s.drop old.length)
    else
      c :: pyReplaceGo old new fuel cs

/-- Python str.replace(old, new) replacing every non-overlapping occurrence
left to right (for a non-empty `old`, which is the only way it is used). -/
def pyReplace (s old new : String) : String :=
  if old.data.isEmpty then s
  else String.mk (pyReplaceGo old.data new.data s.data.length s.data)

/-- Python int(...) on a string of decimal digits. -/
def digitsToNat (l : List Char) : Nat :=
  l.foldl (fun acc c => acc * 10 + (c.toNat - 48)) 0

/-- Python list slicing l[-n:] (keep the last `n` elements). -/
def lastN (n : Nat) (l : List α) : List α :=
  l.drop (l.length - n)

/-- Ordered-dictionary lookup with default (Python dict.get(k, d)). -/
def dictGet (d : List (String × Nat)) (k : String) (dflt : Nat) : Nat :=
  match d.find? (fun p => p.1 == k) with
  | some p => p.2
  | none => dflt

/-- Ordered-dictionary update (Python d[k] = v): updates in place if the key
is present, otherwise appends, preserving Python's insertion order. -/
def dictSet (d : List (String × Nat)) (k : String) (v : Nat) : List (String × Nat) :=
  if d.any (fun p => p.1 == k) then
    d.map (fun p => if p.1 == k then (k, v) else p)
  else
    d ++ [(k, v)]

/-! ## MD5 (RFC 1321) over byte lists, with 32-bit words as Nat mod 2^32.
Python's hashlib.md5(title.lower().encode()).hexdigest()[:12] is modelled by
`md5Hex` composed with UTF-8 encoding. -/

/-- UTF-8 encoding of one character (Python str.encode()). -/
def utf8Char (c : Char) : List Nat :=
  let n := c.toNat
  if n < 0x80 then [n]
  else if n < 0x800 then [0xc0 + n / 0x40, 0x80 + n % 0x40]
  else if n < 0x10000 then
    [0xe0 + n / 0x1000, 0x80 + (n / 0x40) % 0x40, 0x80 + n % 0x40]
  else
    [0xf0 + n / 0x40000, 0x80 + (n / 0x1000) % 0x40,
     0x80 + (n / 0x40) % 0x40, 0x80 + n % 0x40]

/-- UTF-8 encoding of a string as a list of bytes. -/
def utf8Bytes (s : String) : List Nat :=
  s.data.flatMap utf8Char

/-- 32-bit truncation. -/
def m32 (x : Nat) : Nat := x % 4294967296

/-- 32-bit left rotation. -/
def rotl32 (x n : Nat) : Nat :=
  m32 (x * 2 ^ n) ||| (m32 x / 2 ^ (32 - n))

/-- 32-bit bitwise complement. -/
def not32 (x : Nat) : Nat := Nat.xor x 4294967295

/-- The MD5 sine-derived constant table K[0..63]. -/
def md5K : List Nat :=
  [0xd76aa478, 0xe8c7b756, 0x242070db, 0xc1bdceee,
   0xf57c0faf, 0x4787c62a, 0xa8304613, 0xfd469501,
   0x698098d8, 0x8b44f7af, 0xffff5bb1, 0x895cd7be,
   0x6b901122, 0xfd987193, 0xa679438e, 0x49b40821,
   0xf61e2562, 0xc040b340, 0x265e5a51, 0xe9b6c7aa,
   0xd62f105d, 0x02441453, 0xd8a1e681, 0xe7d3fbc8,
   0x21e1cde6, 0xc33707d6, 0xf4d50d87, 0x455a14ed,
   0xa9e3e905, 0xfcefa3f8, 0x676f02d9, 0x8d2a4c8a,
   0xfffa3942, 0x8771f681, 0x6d9d6122, 0xfde5380c,
   0xa4beea44, 0x4bdecfa9, 0xf6bb4b60, 0xbebfbc70,
   0x289b7ec6, 0xeaa127fa, 0xd4ef3085, 0x04881d05,
   0xd9d4d039, 0xe6db99e5, 0x1fa27cf8, 0xc4ac5665,
   0xf4292244, 0x432aff97, 0xab9423a7, 0xfc93a039,
   0x655b59c3, 0x8f0ccc92, 0xffeff47d, 0x85845dd1,
   0x6fa87e4f, 0xfe2ce6e0, 0xa3014314, 0x4e0811a1,
   0xf7537e82, 0xbd3af235, 0x2ad7d2bb, 0xeb86d391]

/-- The MD5 per-round shift amounts s[0..63]. -/
def md5S : List Nat :=
  [7, 12, 17, 22, 7, 12, 17, 22, 7, 12, 17, 22, 7, 12, 17, 22,
   5, 9, 14, 20, 5, 9, 14, 20, 5, 9, 14, 20, 5, 9, 14, 20,
   4, 11, 16, 23, 4, 11, 16, 23, 4, 11, 16, 23, 4, 11, 16, 23,
   6, 10, 15, 21, 6, 10, 15, 21, 6, 10, 15, 21, 6, 10, 15, 21]

/-- MD5 message padding: append 0x80, zero bytes to 56 mod 64, then the
original bit length as 8 little-endian bytes. -/
def md5Pad (msg : List Nat) : List Nat :=
  let len := msg.length
  let zeros := (120 - ((len + 1) % 64)) % 64
  let bitLen := (len * 8) % 2 ^ 64
  msg ++ [0x80] ++ List.replicate zeros 0 ++
    (List.range 8).map (fun i => (bitLen / 2 ^ (8 * i)) % 256)

/-- Split a padded message into 64-byte chunks (the first argument is
fuel, structurally decreasing; the padded length is a multiple of 64). -/
def md5ChunksGo : Nat → List Nat → List (List Nat)
  | _, [] => []
  | 0, _ => []
  | fuel + 1, bytes => bytes.take 64 :: md5ChunksGo fuel (bytes.drop 64)

/-- Split a padded message into 64-byte chunks. -/
def md5Chunks (bytes : List Nat) : List (List Nat) :=
  md5ChunksGo bytes.length bytes

/-- Decode a 64-byte chunk into 16 little-endian 32-bit words. -/
def md5Words (chunk : List Nat) : List Nat :=
  (List.range 16).map (fun i =>
    chunk.getD (4 * i) 0 + chunk.getD (4 * i + 1) 0 * 256 +
    chunk.getD (4 * i + 2) 0 * 65536 + chunk.getD (4 * i + 3) 0 * 16777216)

/-- One MD5 round operation (round index `i`, working registers a b c d). -/
def md5Step (m : List Nat) (st : Nat × Nat × Nat × Nat) (i : Nat) :
    Nat × Nat × Nat × Nat :=
  let (a, b, c, d) := st
  let (f, g) :=
    if i < 16 then ((b &&& c) ||| (not32 b &&& d), i)
    else if i < 32 then ((d &&& b) ||| (not32 d &&& c), (5 * i + 1) % 16)
    else if i < 48 then (Nat.xor (Nat.xor b c) d, (3 * i + 5) % 16)
    else (Nat.xor c (b ||| not32 d), (7 * i) % 16)
  let f' := m32 (f + a + md5K.getD i 0 + m.getD g 0)
  (d, m32 (b + rotl32 f' (md5S.getD i 0)), b, c)

/-- Process one 64-byte chunk, updating the four MD5 state words. -/
def md5Chunk (st : Nat × Nat × Nat × Nat) (chunk : List Nat) :
    Nat × Nat × Nat × Nat :=
  let m := md5Words chunk
  let (a0, b0, c0, d0) := st
  let (a, b, c, d) := (List.range 64).foldl (md5Step m) st
  (m32 (a0 + a), m32 (b0 + b), m32 (c0 + c), m32 (d0 + d))

/-- Little-endian byte decomposition of a 32-bit word. -/
def leBytes (x : Nat) : List Nat :=
  [x % 256, (x / 256) % 256, (x / 65536) % 256, (x / 16777216) % 256]

/-- Lowercase hex digit. -/
def hexDigit (n : Nat) : Char :=
  if n < 10 then Char.ofNat (48 + n) else Char.ofNat (87 + n)

/-- Lowercase two-digit hex rendering of a byte. -/
def byteHex (b : Nat) : List Char :=
  [hexDigit (b / 16), hexDigit (b % 16)]

/-- MD5 digest of a byte list, as the usual 32-character lowercase hex
string (hashlib.md5(...).hexdigest()). -/
def md5Hex (msg : List Nat) : String :=
  let init : Nat × Nat × Nat × Nat :=
    (0x67452301, 0xefcdab89, 0x98badcfe, 0x10325476)
  let (a, b, c, d) := (md5Chunks (md5Pad msg)).foldl md5Chunk init
  String.mk ((leBytes a ++ leBytes b ++ leBytes c ++ leBytes d).flatMap byteHex)

/-! ## Scheduler data model (auto_scheduler.py) -/

/-- One item parsed out of an RSS/Atom feed (fetch_rss_feed). -/
structure NewsItem where
  title : String
  link : String
  description : String
  date : String
  category : String
  source : String
deriving DecidableEq, Repr

/-- The persisted live-data cache (data_cache.json).  The Python timestamp
is an ISO datetime string; it is modelled as seconds since an epoch. -/
structure DataCache where
  timestamp : Int
  news : List NewsItem
  trending : List (String × Nat)
  fetch_date : String
deriving DecidableEq, Repr

/-- One (angle, title, subtitle) variation of an evergreen topic template. -/
structure Variation where
  angle : String
  title : String
  subtitle : String
deriving DecidableEq, Repr

/-- One topic group of TOPIC_FRAMEWORKS: a template name plus variations. -/
structure TopicGroup where
  template : String
  variations : List Variation
deriving DecidableEq, Repr

/-- The trend_data attached to a dynamic topic candidate. -/
structure TrendData where
  keyword : String
  count : Nat
  related_news : List NewsItem
deriving DecidableEq, Repr

/-- A selected topic, as returned by the selection functions. -/
structure TopicCandidate where
  category : String
  base_topic : String
  angle : String
  title : String
  subtitle : String
  title_hash : String
  is_dynamic : Bool
  trend_data : Option TrendData
deriving DecidableEq, Repr

/-- The persisted scheduler state (scheduler_state.json).  Keys that the
Python code reads with .get(k, default) or initialises on demand are
modelled as always-present fields holding the default.  last_post_date is
the stored date as seconds-since-epoch at midnight. -/
structure SchedulerState where
  last_post_date : Option Int
  published_posts : List String
  category_rotation : Nat
  topic_index : List (String × Nat)
  group_index : List (String × Nat)
  style_rotation : Nat
  structure_rotation : Nat
  post_count : Nat
  recent_topics : List String
deriving DecidableEq, Repr

/-- The various views of datetime.now() that the scheduler takes.  `now` is
seconds since an epoch, `todayMidnight` is the same instant truncated to a
date (what strftime("%Y-%m-%d") stores), `month`/`year`/`monthYear` are the
strftime("%B"), strftime("%Y") and strftime("%B %Y") renderings. -/
structure Clock where
  now : Int
  todayMidnight : Int
  month : String
  year : String
  monthYear : String
deriving DecidableEq, Repr

/-- A generated post: its target file path and rendered HTML
(BlogPostGenerator.generate output, as far as the scheduler observes it). -/
structure PostFile where
  filepath : String
  html : String
deriving DecidableEq, Repr

/-- One file-system write performed by a scheduler run, in order. -/
inductive FileWrite where
  | cacheW : DataCache → FileWrite
  | postW : String → String → FileWrite
  | stateW : SchedulerState → FileWrite
deriving DecidableEq, Repr

/-- get_content_hash: first 12 hex digits of the MD5 of the lowercased
(UTF-8 encoded) title. -/
def get_content_hash (title : String) : String :=
  (md5Hex (utf8Bytes (pyLower title))).take 12

/-- The keyword list tracked by extract_trending_topics. -/
def trendingKeywords : List String :=
  ["ransomware", "breach", "vulnerability", "zero-day", "phishing",
   "AI", "artificial intelligence", "machine learning", "cloud",
   "remote work", "hiring", "shortage", "salary", "certification",
   "CISO", "SOC", "analyst", "engineer", "skills gap",
   "compliance", "regulation", "NIST", "zero trust",
   "supply chain", "insider threat", "IoT", "OT", "ICS",
   "healthcare", "finance", "government", "critical infrastructure"]

/-- extract_trending_topics: count keyword occurrences over lowercased
title+description, then stable-sort by count descending and keep 10.
Python's sorted(key=..., reverse=True) is a stable descending sort, which
insertionSort by the flipped non-strict comparison reproduces. -/
def extract_trending_topics (news : List NewsItem) : List (String × Nat) :=
  let counts := news.foldl
    (fun d item =>
      let t := pyLower (item.title ++ " " ++ item.description)
      trendingKeywords.foldl
        (fun d kw => if pyContains t (pyLower kw) then dictSet d kw (dictGet d kw 0 + 1) else d)
        d)
    []
  (counts.insertionSort (fun a b => b.2 ≤ a.2)).take 10

/-- cache_valid: the freshness test of get_fresh_data — the cache file
exists, no forced refresh, and the stored timestamp is strictly less than
CACHE_MAX_AGE_HOURS = 12 hours (43200 seconds) old. -/
def cache_valid (force : Bool) (cacheFile : Option DataCache) (now : Int) : Bool :=
  match cacheFile with
  | some c => !force && decide (now - c.timestamp < 43200)
  | none => false

/-- The replacement cache built on a refresh: fetched news, extracted
trending keywords, and the current timestamp / "%B %Y" fetch date. -/
def mkFreshCache (fetchedNews : List NewsItem) (clock : Clock) : DataCache :=
  { timestamp := clock.now
    news := fetchedNews
    trending := extract_trending_topics fetchedNews
    fetch_date := clock.monthYear }

/-- get_fresh_data: return the cached data when the cache is valid,
otherwise build a fresh cache from the fetched news and fully replace the
cache file (the write is recorded as an effect).  The network fetch
(fetch_all_news) is modelled by the fetchedNews parameter.  The .getD
default in the valid branch is never used: validity implies the cache file
exists. -/
def get_fresh_data (force : Bool) (cacheFile : Option DataCache)
    (fetchedNews : List NewsItem) (clock : Clock) : DataCache × List FileWrite :=
  if cache_valid force cacheFile clock.now then
    (cacheFile.getD (mkFreshCache fetchedNews clock), [])
  else
    let fresh := mkFreshCache fetchedNews clock
    (fresh, [FileWrite.cacheW fresh])

/-- should_post_today: true when no prior post date exists, else true iff
(today − last_date).days ≥ 2, where timedelta .days is a flooring
division of the elapsed seconds by 86400. -/
def should_post_today (state : SchedulerState) (clock : Clock) : Bool :=
  match state.last_post_date with
  | none => true
  | some last => decide (2 ≤ (clock.now - last).fdiv 86400)

/-! ## TOPIC_FRAMEWORKS: the evergreen topic catalog, transcribed verbatim
from auto_scheduler.py (categories in Python dict insertion order). -/

/-- The "getting-started" topic groups. -/
def gettingStartedGroups : List TopicGroup :=
  [{ template := "breaking_in"
     variations :=
      [⟨"without a degree", "How to Break Into Cybersecurity Without a Degree", "You don't need a CS degree. Here's the realistic path."⟩,
       ⟨"from IT support", "From Help Desk to Security: Making the Transition", "Already in IT? Here's how to pivot faster."⟩,
       ⟨"as a career changer", "Career Change to Cybersecurity: A Step-by-Step Guide", "Your existing skills are more valuable than you think."⟩,
       ⟨"over 30", "Is It Too Late to Start a Cybersecurity Career?", "Spoiler: It's not. Age can be an advantage."⟩,
       ⟨"with no experience", "Zero to Hired: Getting Your First Security Job", "Build credibility from nothing."⟩,
       ⟨"as a veteran", "Military to Cybersecurity: Translating Your Experience", "Veterans have massive advantages in security."⟩,
       ⟨"from non-tech", "Non-Tech to Cybersecurity: Yes, It's Possible", "Teachers, nurses, accountants—all have made it."⟩] },
   { template := "first_steps"
     variations :=
      [⟨"what to learn first", "What to Learn First in Cybersecurity", "The exact order to tackle fundamentals."⟩,
       ⟨"home lab guide", "Build Your First Cybersecurity Home Lab", "Hands-on practice beats theory."⟩,
       ⟨"free resources", "Best Free Cybersecurity Learning Resources", "Quality training without spending thousands."⟩,
       ⟨"common mistakes", "Mistakes That Delay Your Security Career", "Avoid traps that cost months."⟩,
       ⟨"realistic timeline", "How Long to Break Into Cybersecurity?", "Honest timelines based on your starting point."⟩,
       ⟨"study plan", "Your First 90 Days Studying Cybersecurity", "A structured plan that works."⟩] }]

/-- The "certifications" topic groups. -/
def certificationsGroups : List TopicGroup :=
  [{ template := "cert_review"
     variations :=
      [⟨"security+", "Is CompTIA Security+ Worth It?", "The most popular entry cert—honest assessment."⟩,
       ⟨"cysa+", "CySA+ Certification: Complete Guide", "The analyst cert for blue team careers."⟩,
       ⟨"pentest+", "PenTest+ vs OSCP: Which to Choose?", "Offensive cert comparison."⟩,
       ⟨"cissp", "CISSP: When to Pursue It", "The gold standard—timing matters."⟩,
       ⟨"ceh", "CEH Certification: Honest Review", "Controversial cert—pros and cons."⟩,
       ⟨"google cert", "Google Cybersecurity Certificate Review", "The budget-friendly alternative."⟩,
       ⟨"isc2 cc", "ISC2 CC: The Free Entry-Level Cert", "Zero cost certification option."⟩] },
   { template := "cert_strategy"
     variations :=
      [⟨"first cert", "Which Cert Should You Get First?", "Decision tree for beginners."⟩,
       ⟨"cert roadmap", "Building Your Certification Roadmap", "Strategic cert stacking."⟩,
       ⟨"over-certification", "Stop Collecting Certs", "When enough is enough."⟩,
       ⟨"employer preferences", "Which Certs Do Employers Want?", "Data from real job postings."⟩,
       ⟨"cert ROI", "Certification ROI: The Real Numbers", "Which certs actually pay off."⟩] }]

/-- The "salaries" topic groups. -/
def salariesGroups : List TopicGroup :=
  [{ template := "salary_data"
     variations :=
      [⟨"entry level", "Entry-Level Cybersecurity Salaries", "What to expect in your first role."⟩,
       ⟨"by role", "Cybersecurity Salaries by Role", "From SOC analyst to CISO."⟩,
       ⟨"by location", "Security Salaries by City", "Geographic pay differences."⟩,
       ⟨"negotiation", "How to Negotiate Your Security Salary", "Tactics worth $10-20K."⟩,
       ⟨"salary growth", "Security Salary Progression: Year 1-10", "Realistic earnings trajectory."⟩,
       ⟨"remote salaries", "Remote Cybersecurity Salaries", "What remote roles actually pay."⟩] }]

/-- The "career-paths" topic groups. -/
def careerPathsGroups : List TopicGroup :=
  [{ template := "role_guide"
     variations :=
      [⟨"soc analyst", "SOC Analyst: Complete Career Guide", "The most common entry point."⟩,
       ⟨"pentester", "How to Become a Penetration Tester", "The offensive security path."⟩,
       ⟨"security engineer", "Security Engineer Career Path", "Building secure infrastructure."⟩,
       ⟨"grc analyst", "GRC Analyst: The Less Technical Path", "Governance, risk, compliance."⟩,
       ⟨"incident responder", "Incident Response Career Guide", "Security firefighting."⟩,
       ⟨"threat intel", "Threat Intelligence Analyst Path", "Tracking adversaries."⟩,
       ⟨"cloud security", "Cloud Security Engineer Guide", "The high-demand specialty."⟩,
       ⟨"devsecops", "DevSecOps Engineer Career Path", "Security meets development."⟩] },
   { template := "career_decisions"
     variations :=
      [⟨"red vs blue", "Red Team vs Blue Team: Which Path?", "Offense vs defense."⟩,
       ⟨"technical vs management", "Technical Track vs Management", "IC or people leader?"⟩,
       ⟨"consulting vs internal", "Consulting vs In-House Security", "Different trade-offs."⟩,
       ⟨"specialize when", "When to Specialize in Cybersecurity", "Depth vs breadth timing."⟩] }]

/-- The "job-search" topic groups. -/
def jobSearchGroups : List TopicGroup :=
  [{ template := "applications"
     variations :=
      [⟨"resume tips", "Security Resume That Gets Interviews", "Beat the ATS filters."⟩,
       ⟨"no experience resume", "Security Resume With No Experience", "Position yourself effectively."⟩,
       ⟨"linkedin", "LinkedIn for Cybersecurity Jobs", "Get recruiters to find you."⟩,
       ⟨"cover letters", "Do Cover Letters Matter in Security?", "When and what to write."⟩,
       ⟨"portfolio", "Building a Security Portfolio", "Show don't tell."⟩] },
   { template := "interviews"
     variations :=
      [⟨"technical interview", "Security Technical Interview Questions", "Common questions answered."⟩,
       ⟨"behavioral interview", "Security Behavioral Interview Tips", "STAR method examples."⟩,
       ⟨"practical assessment", "Ace Security Practical Assessments", "Take-home and live tests."⟩] },
   { template := "strategy"
     variations :=
      [⟨"where to apply", "Where to Find Security Jobs", "Best sources beyond LinkedIn."⟩,
       ⟨"networking", "Networking Into Security", "Connections that matter."⟩,
       ⟨"60 percent rule", "Apply Without Meeting All Requirements", "Job posts are wish lists."⟩] }]

/-- The "skills" topic groups. -/
def skillsGroups : List TopicGroup :=
  [{ template := "technical"
     variations :=
      [⟨"top skills", "Top Technical Skills Employers Want", "From real job posting data."⟩,
       ⟨"networking basics", "Networking Fundamentals for Security", "The essential foundation."⟩,
       ⟨"linux skills", "Linux Skills for Cybersecurity", "Command line proficiency."⟩,
       ⟨"python security", "Python for Cybersecurity", "Scripting that matters."⟩,
       ⟨"cloud skills", "Cloud Security Skills in Demand", "AWS, Azure, GCP."⟩,
       ⟨"siem skills", "SIEM Skills Every Analyst Needs", "Splunk, Sentinel, and more."⟩] },
   { template := "soft_skills"
     variations :=
      [⟨"communication", "Communication Skills in Security", "Writing and presenting."⟩,
       ⟨"problem solving", "Analytical Thinking for Security", "Systematic approaches."⟩,
       ⟨"continuous learning", "Keeping Up With Security Changes", "Stay current without burnout."⟩] }]

/-- The "industry-trends" topic groups. -/
def industryTrendsGroups : List TopicGroup :=
  [{ template := "market_trends"
     variations :=
      [⟨"job market", "Cybersecurity Job Market Update", "Current hiring trends."⟩,
       ⟨"ai impact", "How AI Is Changing Security Jobs", "Automation's real impact."⟩,
       ⟨"remote trends", "Remote Work in Cybersecurity", "Which roles work remote."⟩,
       ⟨"skills gap", "The Cybersecurity Skills Gap", "What shortage means for you."⟩] },
   { template := "future"
     variations :=
      [⟨"emerging roles", "Emerging Cybersecurity Roles", "New positions to watch."⟩,
       ⟨"automation", "Will Automation Replace Analysts?", "What AI handles vs humans."⟩,
       ⟨"future proof", "Is Cybersecurity Future-Proof?", "Long-term career outlook."⟩] }]

/-- TOPIC_FRAMEWORKS as an ordered association list. -/
def TOPIC_FRAMEWORKS : List (String × List TopicGroup) :=
  [("getting-started", gettingStartedGroups),
   ("certifications", certificationsGroups),
   ("salaries", salariesGroups),
   ("career-paths", careerPathsGroups),
   ("job-search", jobSearchGroups),
   ("skills", skillsGroups),
   ("industry-trends", industryTrendsGroups)]

/-- list(TOPIC_FRAMEWORKS.keys()), the round-robin category order. -/
def topicCategories : List String := TOPIC_FRAMEWORKS.map (fun p => p.1)

/-- list(DYNAMIC_TEMPLATES.keys()), in Python dict insertion order. -/
def dynamicTemplateKeys : List String :=
  ["news_reaction", "trending_skill", "market_update", "threat_career"]

/-- DYNAMIC_TEMPLATES[k]["category"]. -/
def dynamicCategory (k : String) : String :=
  if k = "news_reaction" then "industry-trends"
  else if k = "trending_skill" then "skills"
  else if k = "market_update" then "salaries"
  else "career-paths"

/-- INTRO_STYLES. -/
def INTRO_STYLES : List String :=
  ["stat_hook", "question_hook", "myth_buster", "story_hook", "direct_answer"]

/-- CONTENT_STRUCTURES. -/
def CONTENT_STRUCTURES : List String :=
  ["listicle", "guide", "comparison", "deep_dive", "qa_format", "myth_vs_reality"]

/-! ## Topic selection (select_dynamic_topic, select_evergreen_topic,
select_next_topic).  Calls to random.choice are modelled by explicit index
parameters; an out-of-range index yields no selection, so theorems
quantified over the index cover every outcome the Python code can draw. -/

/-- The title/subtitle formatting if/elif chain of select_dynamic_topic:
each DYNAMIC_TEMPLATES entry's title_format / subtitle_format applied by
str.format substitution (the unknown-template else branch returns None). -/
def dynamicFormat (template_key trend_keyword : String) (clock : Clock) :
    Option (String × String) :=
  if template_key = "news_reaction" then
    some ("What " ++ pyTitle trend_keyword ++ " Means for Your Security Career",
          "Recent developments in " ++ trend_keyword ++ " and how they affect job seekers.")
  else if template_key = "trending_skill" then
    some (pyTitle trend_keyword ++ " Skills Are in Demand—Here's Why",
          "Employers are actively seeking " ++ trend_keyword ++ " expertise. How to get it.")
  else if template_key = "market_update" then
    some ("Security Job Market: " ++ clock.month ++ " " ++ clock.year ++ " Update",
          "Latest hiring trends, salary data, and what's changed.")
  else if template_key = "threat_career" then
    some ("The Rise of " ++ pyTitle trend_keyword ++ "—And the Careers Fighting It",
          "How " ++ trend_keyword ++ " is creating new job opportunities.")
  else none

/-- available_trends: the trending keywords not recently used (matched
case-insensitively against the recent_topics list). -/
def availableTrends (state : SchedulerState) (live : DataCache) :
    List (String × Nat) :=
  live.trending.filter
    (fun t => !(state.recent_topics.map pyLower).contains (pyLower t.1))

/-- select_dynamic_topic.  `pickTrend` indexes the available_trends[:5]
slice, `pickTmpl` indexes the DYNAMIC_TEMPLATES key list.  Returns the
candidate and the updated in-memory state (recent_topics tracking);
every failure path in the Python code returns before mutating state. -/
def select_dynamic_topic (state : SchedulerState) (live : DataCache)
    (pickTrend pickTmpl : Nat) (clock : Clock) :
    Option (TopicCandidate × SchedulerState) :=
  if (availableTrends state live).isEmpty then none
  else
    match ((availableTrends state live).take 5).get? pickTrend with
    | none => none
    | some (trend_keyword, trend_count) =>
      match dynamicTemplateKeys.get? pickTmpl with
      | none => none
      | some template_key =>
        match dynamicFormat template_key trend_keyword clock with
        | none => none
        | some (title, subtitle) =>
          if state.published_posts.contains (get_content_hash title) then none
          else
            some ({ category := dynamicCategory template_key
                    base_topic := trend_keyword
                    angle := template_key
                    title := title
                    subtitle := subtitle
                    title_hash := get_content_hash title
                    is_dynamic := true
                    trend_data := some ⟨trend_keyword, trend_count,
                      (live.news.filter (fun n =>
                        pyContains (pyLower (n.title ++ n.description))
                          (pyLower trend_keyword))).take 3⟩ },
                  { state with
                    recent_topics := lastN 20 (state.recent_topics ++ [trend_keyword]) })

/-- The inner while-loop of select_evergreen_topic: scan the variations
starting at var_idx, wrapping modulo the count, for the first one whose
title hash is not in the published list.  The first argument counts the
remaining attempts (len(variations) at the top-level call). -/
def scanVariations (variations : List Variation) (var_idx : Nat)
    (published : List String) : Nat → Nat → Option (Nat × Variation)
  | 0, _ => none
  | rem + 1, attempts =>
    match variations.get? ((var_idx + attempts) % variations.length) with
    | none => none
    | some v =>
      if published.contains (get_content_hash v.title) then
        scanVariations variations var_idx published rem (attempts + 1)
      else
        some ((var_idx + attempts) % variations.length, v)

/-- select_evergreen_topic.  The Python function recurses unboundedly when
every variation of every category is exhausted; the fuel argument makes
that recursion explicit (fuel 0 models the Python RecursionError). -/
def select_evergreen_topic : Nat → SchedulerState → Clock →
    Option (TopicCandidate × SchedulerState)
  | 0, _, _ => none
  | fuel + 1, state, clock =>
    let categories := topicCategories
    let cat_idx := state.category_rotation % categories.length
    let category := categories.getD cat_idx ""
    let state1 := { state with category_rotation := cat_idx + 1 }
    let topic_groups :=
      ((TOPIC_FRAMEWORKS.find? (fun p => p.1 == category)).map (fun p => p.2)).getD []
    let group_key := category ++ "_group"
    let group_idx := dictGet state1.group_index group_key 0 % topic_groups.length
    let state2 := { state1 with
      group_index := dictSet state1.group_index group_key (group_idx + 1) }
    match topic_groups.get? group_idx with
    | none => none
    | some topic_group =>
      let template := topic_group.template
      let variations := topic_group.variations
      let template_key := category ++ "_" ++ template
      let var_idx := dictGet state2.topic_index template_key 0
      match scanVariations variations var_idx state2.published_posts variations.length 0 with
      | some (idx, v) =>
        let state3 := { state2 with
          topic_index := dictSet state2.topic_index template_key (idx + 1) }
        let title :=
          if pyContains (pyLower v.title) "\x7byear\x7d" || pyContains v.title "2025" then
            pyReplace v.title "2025" clock.year
          else v.title
        some ({ category := category
                base_topic := template
                angle := v.angle
                title := title
                subtitle := v.subtitle
                title_hash := get_content_hash v.title
                is_dynamic := false
                trend_data := none }, state3)
      | none =>
        select_evergreen_topic fuel
          { state2 with category_rotation := state2.category_rotation + 1 } clock

/-- select_next_topic.  `roll` is the outcome of random.random() < 0.30;
dynamic selection is attempted when the roll succeeds and live data with a
non-empty trending list is present, falling back to evergreen selection
when it yields nothing. -/
def select_next_topic (roll : Bool) (pickTrend pickTmpl fuel : Nat)
    (state : SchedulerState) (live : Option DataCache) (clock : Clock) :
    Option (TopicCandidate × SchedulerState) :=
  let use_dynamic := roll &&
    (match live with | some l => !l.trending.isEmpty | none => false)
  let dynResult :=
    if use_dynamic then
      match live with
      | some l => select_dynamic_topic state l pickTrend pickTmpl clock
      | none => none
    else none
  match dynResult with
  | some r => some r
  | none => select_evergreen_topic fuel state clock

/-- generate_scheduled_post, at the granularity the frame/effect claims
need: the returned value and the ordered list of file writes.  The content
assembly and HTML rendering (generate_post_content, BlogPostGenerator) are
abstracted by the `gen` parameter mapping the chosen topic and the rotated
intro style / structure to the generated post; the run's write behaviour is
independent of it.  A `none` from topic selection models the unbounded
evergreen recursion aborting the run (RecursionError), after which nothing
further is written. -/
def generate_scheduled_post (preview force refresh : Bool) (roll : Bool)
    (pickTrend pickTmpl fuel : Nat) (state : SchedulerState)
    (cacheFile : Option DataCache) (fetchedNews : List NewsItem)
    (gen : TopicCandidate → String → String → PostFile) (clock : Clock) :
    Option PostFile × List FileWrite :=
  if !force && !should_post_today state clock then (none, [])
  else
    let fd := get_fresh_data refresh cacheFile fetchedNews clock
    let live := fd.1
    let cacheWrites := fd.2
    match select_next_topic roll pickTrend pickTmpl fuel state (some live) clock with
    | none => (none, cacheWrites)
    | some (topic, state2) =>
      let intro_style := INTRO_STYLES.getD (state2.style_rotation % INTRO_STYLES.length) ""
      let content_structure :=
        CONTENT_STRUCTURES.getD (state2.structure_rotation % CONTENT_STRUCTURES.length) ""
      let state3 := { state2 with
        style_rotation := state2.style_rotation + 1
        structure_rotation := state2.structure_rotation + 1 }
      let post := gen topic intro_style content_structure
      if preview then (some post, cacheWrites)
      else
        let state4 := { state3 with
          last_post_date := some clock.todayMidnight
          published_posts := state3.published_posts ++ [topic.title_hash]
          post_count := state3.post_count + 1 }
        (some post, cacheWrites ++
          [FileWrite.postW post.filepath post.html, FileWrite.stateW state4])

/-! ## A small backtracking regex engine, covering exactly the constructs
used by the patterns in update_manifest.py and patch_posts.py: literal
characters, single-character classes, greedy star/plus and lazy plus over a
class, and one capture group.  Greedy quantifiers try the longest extent
first, lazy ones the shortest, with full backtracking into the tail of the
pattern, matching Python re semantics on these patterns. -/

/-- One pattern item. -/
inductive RItem where
  | lit : Char → RItem
  | cls : (Char → Bool) → RItem
  | star : (Char → Bool) → RItem
  | plusG : (Char → Bool) → RItem
  | plusL : (Char → Bool) → RItem
  | gOpen : RItem
  | gClose : RItem

/-- Try f k, f (k-1), ..., f 0, returning the first success (greedy
backtracking order). -/
def tryDesc (f : Nat → Option α) : Nat → Option α
  | 0 => f 0
  | k + 1 =>
    match f (k + 1) with
    | some r => some r
    | none => tryDesc f k

/-- Try f lo, f (lo+1), ... for `count` values, returning the first
success (lazy backtracking order). -/
def tryAsc (f : Nat → Option α) (lo : Nat) : Nat → Option α
  | 0 => none
  | count + 1 =>
    match f lo with
    | some r => some r
    | none => tryAsc f (lo + 1) count

/-- Length of the maximal run of class-p characters starting at i. -/
def countWhile (p : Char → Bool) (s : List Char) (i : Nat) : Nat :=
  ((s.drop i).takeWhile p).length

/-- Match the item list against s at position i, with capture-group start
and end positions cs/ce.  Returns (end position, capture start, capture
end) of the first match in backtracking order. -/
def mrun : List RItem → List Char → Nat → Nat → Nat → Option (Nat × Nat × Nat)
  | [], _, i, cs, ce => some (i, cs, ce)
  | .lit c :: rest, s, i, cs, ce =>
    match s.get? i with
    | some x => if x = c then mrun rest s (i + 1) cs ce else none
    | none => none
  | .cls p :: rest, s, i, cs, ce =>
    match s.get? i with
    | some x => if p x then mrun rest s (i + 1) cs ce else none
    | none => none
  | .star p :: rest, s, i, cs, ce =>
    tryDesc (fun k => mrun rest s (i + k) cs ce) (countWhile p s i)
  | .plusG p :: rest, s, i, cs, ce =>
    let mx := countWhile p s i
    if mx = 0 then none
    else tryDesc (fun k => mrun rest s (i + 1 + k) cs ce) (mx - 1)
  | .plusL p :: rest, s, i, cs, ce =>
    tryAsc (fun k => mrun rest s (i + k) cs ce) 1 (countWhile p s i)
  | .gOpen :: rest, s, i, _, ce => mrun rest s i i ce
  | .gClose :: rest, s, i, cs, _ => mrun rest s i cs i

/-- re.search scanning: try each start position left to right. -/
def reSearchGo (items : List RItem) (s : List Char) :
    Nat → Nat → Option (Nat × Nat × Nat × Nat)
  | 0, i =>
    match mrun items s i 0 0 with
    | some (e, cs, ce) => some (i, e, cs, ce)
    | none => none
  | rem + 1, i =>
    match mrun items s i 0 0 with
    | some (e, cs, ce) => some (i, e, cs, ce)
    | none => reSearchGo items s rem (i + 1)

/-- re.search: leftmost match as (start, end, capture start, capture end). -/
def reSearch (items : List RItem) (s : String) : Option (Nat × Nat × Nat × Nat) :=
  reSearchGo items s.data s.data.length 0

/-- The group-1 text of a match result. -/
def capOf (s : String) (m : Nat × Nat × Nat × Nat) : String :=
  String.mk ((s.data.drop m.2.2.1).take (m.2.2.2 - m.2.2.1))

/-- re.findall scanning: collect group-1 captures of successive
non-overlapping matches left to right. -/
def reFindAllGo (items : List RItem) (s : List Char) : Nat → Nat → List String
  | 0, _ => []
  | rem + 1, i =>
    if i > s.length then []
    else
      match mrun items s i 0 0 with
      | some (e, cs, ce) =>
        String.mk ((s.drop cs).take (ce - cs)) ::
          reFindAllGo items s rem (if i < e then e else i + 1)
      | none => reFindAllGo items s rem (i + 1)

/-- re.findall with one capture group. -/
def reFindAll (items : List RItem) (s : String) : List String :=
  reFindAllGo items s.data (s.data.length + 1) 0

/-- re.sub(pattern, "", s) scanning: drop each non-overlapping match,
keep other characters. -/
def reSubEmptyGo (items : List RItem) (s : List Char) : Nat → Nat → List Char
  | 0, _ => []
  | rem + 1, i =>
    if i ≥ s.length then []
    else
      match mrun items s i 0 0 with
      | some (e, _, _) =>
        if i < e then reSubEmptyGo items s rem e
        else s.getD i ' ' :: reSubEmptyGo items s rem (i + 1)
      | none => s.getD i ' ' :: reSubEmptyGo items s rem (i + 1)

/-- re.sub(pattern, "", s). -/
def reSubEmpty (items : List RItem) (s : String) : String :=
  String.mk (reSubEmptyGo items s.data (s.data.length + 1) 0)

/-- Literal character sequence as pattern items. -/
def lits (s : String) : List RItem := s.data.map RItem.lit

/-- Case-insensitive literal character sequence (for re.IGNORECASE). -/
def ciLits (s : String) : List RItem :=
  s.data.map (fun c => RItem.cls (fun x => x = c.toLower || x = c.toUpper))

/-! ## Manifest builder (update_manifest.py) -/

/-- A file in the model file system: path components relative to the blog
root, plus its text content. -/
structure SiteFile where
  parts : List String
  content : String
deriving DecidableEq, Repr

/-- A post metadata record, as built by extract_metadata. -/
structure PostMeta where
  title : String
  excerpt : String
  date : String
  category : String
  category_slug : String
  category_css : String
  tags : List String
  filepath : String
  slug : String
  read_time : Nat
  featured : Bool
deriving DecidableEq, Repr

/-- The posts.json manifest. -/
structure Manifest where
  generated : String
  count : Nat
  posts : List PostMeta
deriving DecidableEq, Repr

/-- CATEGORY_NAMES. -/
def CATEGORY_NAMES : List (String × String) :=
  [("getting-started", "Getting Started"),
   ("certifications", "Certifications"),
   ("salaries", "Salaries"),
   ("career-paths", "Career Paths"),
   ("job-search", "Job Search"),
   ("skills", "Skills"),
   ("industry-trends", "Industry Trends")]

/-- CATEGORY_CSS. -/
def CATEGORY_CSS : List (String × String) :=
  [("getting-started", "gs"),
   ("certifications", "cert"),
   ("salaries", "sal"),
   ("career-paths", "cp"),
   ("job-search", "js"),
   ("skills", "sk"),
   ("industry-trends", "tr")]

/-- The last path component of a file. -/
def fileName (f : SiteFile) : String := f.parts.getLastD ""

/-- String suffix test. -/
def strEndsWith (s suf : String) : Bool :=
  (s.data.reverse.take suf.data.length) == suf.data.reverse

/-- pathlib Path.stem: the final component without its last suffix. -/
def pathStem (name : String) : String :=
  let cs := name.data
  let revTail := cs.reverse.takeWhile (fun c => c ≠ '.')
  if revTail.length + 1 < cs.length then
    String.mk (cs.take (cs.length - revTail.length - 1))
  else name

/-- The path as a string (pathlib string form, used for sorting and for
the manifest's filepath field relative to the blog root). -/
def pathStr (f : SiteFile) : String := String.intercalate "/" f.parts

/-- Python str.split() with no argument: whitespace-separated words. -/
def pyWordsGo : List Char → List Char → List String
  | acc, [] => if acc.isEmpty then [] else [String.mk acc.reverse]
  | acc, c :: cs =>
    if isPyWs c then
      if acc.isEmpty then pyWordsGo [] cs
      else String.mk acc.reverse :: pyWordsGo [] cs
    else pyWordsGo (c :: acc) cs

/-- Python str.split() with no argument. -/
def pyWords (s : String) : List String := pyWordsGo [] s.data

/-- Python round(wc / 200) as used for the read-time estimate: round half
to even of the exact rational wc/200 (the float detour in Python computes
the same value for every realistic word count). -/
def pyRound200 (wc : Nat) : Nat :=
  let q := wc / 200
  let r := wc % 200
  if r > 100 then q + 1
  else if r < 100 then q
  else if q % 2 = 0 then q else q + 1

/-- The regex patterns of extract_metadata, transcribed item by item. -/
def patTitle : List RItem :=
  lits "<title>" ++ [RItem.gOpen, RItem.plusL (fun c => c ≠ '\n'), RItem.gClose,
    RItem.star isPyWs, RItem.lit '|', RItem.star isPyWs] ++ lits "TacRaven"

/-- property="og:title"\s+content="([^"]+)" -/
def patOgTitle : List RItem :=
  lits "property=\"og:title\"" ++ [RItem.plusG isPyWs] ++ lits "content=\"" ++
    [RItem.gOpen, RItem.plusG (fun c => c ≠ '"'), RItem.gClose, RItem.lit '"']

/-- Pattern <meta\s+name="description"\s+content="([^"]*)" -/
def patDesc : List RItem :=
  lits "<meta" ++ [RItem.plusG isPyWs] ++ lits "name=\"description\"" ++
    [RItem.plusG isPyWs] ++ lits "content=\"" ++
    [RItem.gOpen, RItem.star (fun c => c ≠ '"'), RItem.gClose, RItem.lit '"']

/-- property="og:description"\s+content="([^"]*)" -/
def patOgDesc : List RItem :=
  lits "property=\"og:description\"" ++ [RItem.plusG isPyWs] ++ lits "content=\"" ++
    [RItem.gOpen, RItem.star (fun c => c ≠ '"'), RItem.gClose, RItem.lit '"']

/-- class="hero-subtitle"[^>]*>([^<]+)< -/
def patSubtitle : List RItem :=
  lits "class=\"hero-subtitle\"" ++ [RItem.star (fun c => c ≠ '>'), RItem.lit '>',
    RItem.gOpen, RItem.plusG (fun c => c ≠ '<'), RItem.gClose, RItem.lit '<']

/-- article:published_time"\s+content="([^"]+)" -/
def patPubTime : List RItem :=
  lits "article:published_time\"" ++ [RItem.plusG isPyWs] ++ lits "content=\"" ++
    [RItem.gOpen, RItem.plusG (fun c => c ≠ '"'), RItem.gClose, RItem.lit '"']

/-- class="hero-category"[^>]*>([^<]+)< -/
def patCategory : List RItem :=
  lits "class=\"hero-category\"" ++ [RItem.star (fun c => c ≠ '>'), RItem.lit '>',
    RItem.gOpen, RItem.plusG (fun c => c ≠ '<'), RItem.gClose, RItem.lit '<']

/-- class="tag"[^>]*>([^<]+)< -/
def patTag : List RItem :=
  lits "class=\"tag\"" ++ [RItem.star (fun c => c ≠ '>'), RItem.lit '>',
    RItem.gOpen, RItem.plusG (fun c => c ≠ '<'), RItem.gClose, RItem.lit '<']

/-- Pattern (\d+)\s*min\s*read with re.IGNORECASE. -/
def patMinRead : List RItem :=
  [RItem.gOpen, RItem.plusG Char.isDigit, RItem.gClose, RItem.star isPyWs] ++
    ciLits "min" ++ [RItem.star isPyWs] ++ ciLits "read"

/-- Pattern <[^>]+> (the tag stripper used for the word-count fallback). -/
def patAnyTag : List RItem :=
  [RItem.lit '<', RItem.plusG (fun c => c ≠ '>'), RItem.lit '>']

/-- Date fallback: extract posts/YYYY/MM from the path components. -/
def dateFromParts (parts : List String) : String :=
  match parts.findIdx? (fun p => p == "posts") with
  | some idx =>
    match parts.get? (idx + 1), parts.get? (idx + 2) with
    | some y, some m => y ++ "-" ++ m ++ "-01"
    | _, _ => "2025-01-01"
  | none => "2025-01-01"

/-- Reverse lookup of a category slug from its display name
(case-insensitive, first match, defaulting to getting-started). -/
def slugFromDisplay (disp : String) : String :=
  match CATEGORY_NAMES.find? (fun p => pyLower p.2 == pyLower disp) with
  | some p => p.1
  | none => "getting-started"

/-- extract_metadata: pull the post metadata out of one HTML file using
the fixed patterns the renderer emits, with the documented fallbacks.
The file-read try/except never fails in the model (contents are given). -/
def extract_metadata (f : SiteFile) : PostMeta :=
  let html := f.content
  let title :=
    match reSearch patTitle html with
    | some m => pyStrip (capOf html m)
    | none =>
      match reSearch patOgTitle html with
      | some m => pyStrip (capOf html m)
      | none => pyTitle (pyReplace (pathStem (fileName f)) "-" " ")
  let excerpt :=
    match reSearch patDesc html with
    | some m => pyStrip (capOf html m)
    | none =>
      match reSearch patOgDesc html with
      | some m => pyStrip (capOf html m)
      | none =>
        match reSearch patSubtitle html with
        | some m => pyStrip (capOf html m)
        | none => ""
  let date :=
    match reSearch patPubTime html with
    | some m => pyStrip (capOf html m)
    | none => dateFromParts f.parts
  let (category, category_slug) :=
    match reSearch patCategory html with
    | some m =>
      let disp := pyStrip (capOf html m)
      (disp, slugFromDisplay disp)
    | none => ("Getting Started", "getting-started")
  let category_css :=
    match CATEGORY_CSS.find? (fun p => p.1 == category_slug) with
    | some p => p.2
    | none => "gs"
  let tags0 := reFindAll patTag html
  let tags := if tags0.isEmpty then [category, "Cybersecurity"] else tags0
  let read_time :=
    match reSearch patMinRead html with
    | some m => digitsToNat (capOf html m).data
    | none =>
      let text_only := reSubEmpty patAnyTag html
      max 1 (pyRound200 (pyWords text_only).length)
  { title := title
    excerpt := excerpt
    date := date
    category := category
    category_slug := category_slug
    category_css := category_css
    tags := tags
    filepath := pathStr f
    slug := pathStem (fileName f)
    read_time := read_time
    featured := false }

/-- Mark the first (newest) post as featured (posts[0]["featured"] = True
on a non-empty list). -/
def markFeatured : List PostMeta → List PostMeta
  | [] => []
  | h :: t => { h with featured := true } :: t

/-- scan_posts: walk the html files of the posts directory in
sorted-descending path order, skip index.html, extract metadata, stable
sort by date descending (Python's sort is stable; insertionSort by the
flipped non-strict comparison is the same stable descending sort), and
flag the newest post as featured. -/
def scan_posts (dir : List SiteFile) : List PostMeta :=
  let html_files := dir.filter (fun f => strEndsWith (fileName f) ".html")
  let sortedFiles := html_files.insertionSort (fun a b => pathStr b ≤ pathStr a)
  let files2 := sortedFiles.filter (fun f => fileName f ≠ "index.html")
  let posts := files2.map extract_metadata
  markFeatured (posts.insertionSort (fun a b => b.date ≤ a.date))

/-- Write (create or fully replace) a file in the model file system. -/
def updateFile (dir : List SiteFile) (parts : List String) (content : String) :
    List SiteFile :=
  if dir.any (fun f => f.parts == parts) then
    dir.map (fun f => if f.parts == parts then ⟨parts, content⟩ else f)
  else dir ++ [⟨parts, content⟩]

/-- A deterministic rendering of one post record (the JSON serialization,
abstracted to a function of exactly the record's fields). -/
def renderPost (p : PostMeta) : String :=
  "\x7b\"title\": \"" ++ p.title ++ "\", \"excerpt\": \"" ++ p.excerpt ++
    "\", \"date\": \"" ++ p.date ++ "\", \"category\": \"" ++ p.category ++
    "\", \"category_slug\": \"" ++ p.category_slug ++
    "\", \"category_css\": \"" ++ p.category_css ++
    "\", \"tags\": [" ++ String.intercalate ", " (p.tags.map (fun t => "\"" ++ t ++ "\"")) ++
    "], \"filepath\": \"" ++ p.filepath ++ "\", \"slug\": \"" ++ p.slug ++
    "\", \"read_time\": " ++ toString p.read_time ++
    ", \"featured\": " ++ (if p.featured then "true" else "false") ++ "\x7d"

/-- A deterministic rendering of the manifest (json.dumps, abstracted to a
function of exactly the manifest's fields in their serialization order). -/
def renderManifest (m : Manifest) : String :=
  "\x7b\"generated\": \"" ++ m.generated ++ "\", \"count\": " ++ toString m.count ++
    ", \"posts\": [" ++ String.intercalate ", " (m.posts.map renderPost) ++ "]\x7d"

/-- generate_manifest: scan the posts directory (an absent directory scans
as empty), build the manifest with the generation timestamp, create the
posts directory if needed and fully replace posts/posts.json.  Returns the
manifest and the posts directory contents after the run. -/
def generate_manifest (dirOpt : Option (List SiteFile)) (nowIso : String) :
    Manifest × List SiteFile :=
  let posts := match dirOpt with | none => [] | some d => scan_posts d
  let manifest : Manifest := { generated := nowIso, count := posts.length, posts := posts }
  (manifest, updateFile (dirOpt.getD []) ["posts", "posts.json"] (renderManifest manifest))

/-! ## Post patcher (.github/workflows/patch_posts.py) -/

/-- The unemployment-stat block pattern of patch step 1:
div.stat containing stat-value ~0% and stat-label Unemployment,
with \s* between the fixed fragments. -/
def patUnemployment : List RItem :=
  lits "<div class=\"stat\">" ++ [RItem.star isPyWs] ++
    lits "<div class=\"stat-value\">~0%</div>" ++ [RItem.star isPyWs] ++
    lits "<div class=\"stat-label\">Unemployment</div>" ++ [RItem.star isPyWs] ++
    lits "</div>"

/-- old_css of patch step 2. -/
def oldCssStr : String := "display:grid;grid-template-columns:repeat(4,1fr)"

/-- new_css of patch step 2. -/
def newCssStr : String := "display:flex;flex-wrap:wrap;justify-content:center"

/-- old_stat of patch step 3. -/
def oldStatStr : String := ".stat\x7btext-align:center;position:relative"

/-- new_stat of patch step 3. -/
def newStatStr : String := ".stat\x7btext-align:center;position:relative;flex:0 1 200px"

/-- old_mobile of patch step 5. -/
def oldMobileStr : String :=
  "stats-inner\x7bgrid-template-columns:repeat(2,1fr);gap:1.5rem\x7d."

/-- Patch rule 1: remove the unemployment stat block (re.sub with empty
replacement) when the pattern matches. -/
def patchStep1 (p : String × List String) : String × List String :=
  if (reSearch patUnemployment p.1).isSome then
    (reSubEmpty patUnemployment p.1, p.2 ++ ["Removed ~0% Unemployment stat"])
  else p

/-- Patch rule 2: swap the stats-inner grid CSS for the flex CSS. -/
def patchStep2 (p : String × List String) : String × List String :=
  if pyContains p.1 oldCssStr then
    (pyReplace p.1 oldCssStr newCssStr, p.2 ++ ["Updated stats-inner to flex layout"])
  else p

/-- Patch rule 3: add flex sizing to .stat when not already present. -/
def patchStep3 (p : String × List String) : String × List String :=
  if pyContains p.1 oldStatStr && !pyContains p.1 "flex:0 1 200px" then
    (pyReplace p.1 oldStatStr newStatStr, p.2 ++ ["Added flex sizing to .stat"])
  else p

/-- Patch rule 4: fix /blog/ back links. -/
def patchStep4 (p : String × List String) : String × List String :=
  if pyContains p.1 "href=\"/blog/\"" then
    (pyReplace p.1 "href=\"/blog/\"" "href=\"../../../Blog.html\"",
     p.2 ++ ["Fixed /blog/ links to ../../../Blog.html"])
  else p

/-- Patch rule 5: drop the stats-inner override from the mobile media
query. -/
def patchStep5 (p : String × List String) : String × List String :=
  if pyContains p.1 oldMobileStr then
    (pyReplace p.1 oldMobileStr "", p.2 ++ ["Cleaned up mobile media query"])
  else p

/-- patch_file: apply the five find/replace rules in order, collecting a
change description per rule that fired; following the Python code, the
returned change list is non-empty only when the text actually changed
(the final text != original test).  The write itself is performed by the
caller model (patch_main) under the same condition. -/
def patch_file (text0 : String) : String × List String :=
  let r := patchStep5 (patchStep4 (patchStep3 (patchStep2 (patchStep1 (text0, [])))))
  if r.1 ≠ text0 then r else (text0, [])

/-- The outcome of a patch_posts.py run: either a fatal exit with a code,
or a normal completion with the resulting posts directory contents and the
list of file paths reported as (would-be) patched. -/
inductive PatchOutcome where
  | fatal : Nat → PatchOutcome
  | done : List SiteFile → List (List String) → PatchOutcome
deriving DecidableEq, Repr

/-- patch_posts.py main.  A missing posts directory is fatal (exit 1).
Each rglob file is read once and written back (when changed, and only
with --apply) at its own path, so the loop's net disk effect is the
per-file map below; the sorted processing order affects only the printed
report, modelled by the reported list. -/
def patch_main (applyFlag : Bool) (dirOpt : Option (List SiteFile)) : PatchOutcome :=
  match dirOpt with
  | none => .fatal 1
  | some dir =>
    let dry_run := !applyFlag
    let html_files := dir.filter (fun f => strEndsWith (fileName f) ".html")
    if html_files.isEmpty then .done dir []
    else
      let sortedFiles := html_files.insertionSort (fun a b => pathStr a ≤ pathStr b)
      let reported :=
        (sortedFiles.filter (fun f => !(patch_file f.content).2.isEmpty)).map
          (fun f => f.parts)
      let newDir := dir.map (fun f =>
        if !dry_run && strEndsWith (fileName f) ".html" &&
            (patch_file f.content).1 != f.content then
          { f with content := (patch_file f.content).1 }
        else f)
      .done newDir reported

/-! ## Shared concrete inputs for witnesses and evaluations -/

/-- The all-defaults scheduler state produced by load_state when no state
file exists. -/
def initState : SchedulerState :=
  { last_post_date := none, published_posts := [], category_rotation := 0,
    topic_index := [], group_index := [], style_rotation := 0,
    structure_rotation := 0, post_count := 0, recent_topics := [] }

/-- A sample clock (October 2026). -/
def octClock : Clock :=
  { now := 0, todayMidnight := 0, month := "October", year := "2026",
    monthYear := "October 2026" }

/-! ## C2: round-robin category rotation -/

/-- The title hashes of every variation in the single "salaries" topic
group — the published history of a run in which all salaries topics have
been used. -/
def salariesHashes : List String :=
  (salariesGroups.headD ⟨"", []⟩).variations.map (fun v => get_content_hash v.title)

/-- A reachable scheduler state: the rotation points at "salaries"
(index 2) and every variation of the salaries group has been published. -/
def exhaustedSalariesState : SchedulerState :=
  { last_post_date := none, published_posts := salariesHashes,
    category_rotation := 2, topic_index := [], group_index := [],
    style_rotation := 0, structure_rotation := 0, post_count := 0,
    recent_topics := [] }

/-- The candidate returned by select_dynamic_topic for the witness call
(news_reaction template, keyword "ransomware"). -/
def c6WitnessCand : TopicCandidate :=
  { category := "industry-trends"
    base_topic := "ransomware"
    angle := "news_reaction"
    title := "What Ransomware Means for Your Security Career"
    subtitle := "Recent developments in ransomware and how they affect job seekers."
    title_hash := get_content_hash "What Ransomware Means for Your Security Career"
    is_dynamic := true
    trend_data := some ⟨"ransomware", 5, []⟩ }

/-! ## Shared selection lemmas (dedup guarantee and hash discipline) -/

/-- Catalog sanity: no evergreen title contains a year placeholder or the
literal 2025, so the year-substitution branch of select_evergreen_topic
never changes a returned title. -/
def catalogTitlesClean : Bool :=
  TOPIC_FRAMEWORKS.all (fun p => p.2.all (fun g => g.variations.all (fun v =>
    !(pyContains (pyLower v.title) "\x7byear\x7d" || pyContains v.title "2025"))))

/-- The candidate returned by the witness call to select_next_topic (the
first evergreen variation from the initial state). -/
def c9WitnessCand : TopicCandidate :=
  { category := "getting-started"
    base_topic := "breaking_in"
    angle := "without a degree"
    title := "How to Break Into Cybersecurity Without a Degree"
    subtitle := "You don't need a CS degree. Here's the realistic path."
    title_hash := get_content_hash "How to Break Into Cybersecurity Without a Degree"
    is_dynamic := false
    trend_data := none }

/-- The state returned alongside `c9WitnessCand`. -/
def c9WitnessState : SchedulerState :=
  { initState with
    category_rotation := 1
    topic_index := [("getting-started_breaking_in", 1)]
    group_index := [("getting-started_group", 1)] }

/-! ## C5: preview writes nothing; state is persisted only after the post -/

/-- A write that persists scheduler progress: the post file or the state
file (the data cache is refreshed even in preview runs). -/
def isPersistW : FileWrite → Bool
  | .postW _ _ => true
  | .stateW _ => true
  | .cacheW _ => false

/-- Checks along a trace that every state-file write is strictly preceded
by a post-file write. -/
def stateAfterPostOk : Bool → List FileWrite → Bool
  | _, [] => true
  | seenPost, .stateW _ :: ws => seenPost && stateAfterPostOk seenPost ws
  | _, .postW _ _ :: ws => stateAfterPostOk true ws
  | seenPost, .cacheW _ :: ws => stateAfterPostOk seenPost ws

/-- The set of files a patch run reports as (would-be) changed: the html
files, in sorted order, whose patch_file change list is non-empty. -/
def patchChangedFiles (dir : List SiteFile) : List (List String) :=
  (((dir.filter (fun f => strEndsWith (fileName f) ".html")).insertionSort
      (fun a b => pathStr a ≤ pathStr b)).filter
    (fun f => !(patch_file f.content).2.isEmpty)).map (fun f => f.parts)

instance : IsTotal PostMeta (fun a b => b.date ≤ a.date) :=
  ⟨fun a b => le_total b.date a.date⟩

instance : IsTrans PostMeta (fun a b => b.date ≤ a.date) :=
  ⟨fun _ _ _ hab hbc => le_trans hbc hab⟩

set_option maxRecDepth 100000

/-- MD5 standard test vector: the empty message. -/
theorem md5Hex_nil : md5Hex [] = "d41d8cd98f00b204e9800998ecf8427e" := by decide

/-- MD5 standard test vector: "abc". -/
theorem md5Hex_abc :
    md5Hex (utf8Bytes "abc") = "900150983cd24fb0d6963f7d28e17f72" := by decide

/-! ## C3: the two-day scheduling gate -/

/-- C3: should_post_today(state) returns true whenever state contains no
last_post_date, and otherwise returns true iff the number of whole days
between the stored last_post_date and now is at least 2: a last date two
days ago (now at 9am) yields true, one day ago yields false. -/
theorem c3_should_post_today (st : SchedulerState) (clock : Clock) (last : Int) :
    should_post_today { st with last_post_date := none } clock = true
    ∧ should_post_today { st with last_post_date := some last } clock
        = decide (2 ≤ (clock.now - last).fdiv 86400)
    ∧ should_post_today { st with last_post_date := some last }
        { clock with now := last + 2 * 86400 + 32400 } = true
    ∧ should_post_today { st with last_post_date := some last }
        { clock with now := last + 1 * 86400 + 32400 } = false := by
  refine ⟨rfl, rfl, ?_, ?_⟩
  · simp only [should_post_today]
    rw [show last + 2 * 86400 + 32400 - last = (205200 : Int) by ring]
    decide
  · simp only [should_post_today]
    rw [show last + 1 * 86400 + 32400 - last = (118800 : Int) by ring]
    decide

/-! ## C4: live-data cache freshness -/

/-- C4: get_fresh_data without a forced refresh returns the cached data
exactly when a cache file exists and its timestamp is strictly less than
12 hours old (valid at T+11h59m, stale at exactly T+12h and at T+12h01m);
when stale or forced, the cache file is fully replaced by a freshly built
cache stamped with the current time. -/
theorem c4_cache_freshness (force : Bool) (cacheFile : Option DataCache)
    (fetchedNews : List NewsItem) (clock : Clock) (c : DataCache) :
    cache_valid force (some c) clock.now
        = (!force && decide (clock.now - c.timestamp < 43200))
    ∧ cache_valid false (some c) (c.timestamp + 43140) = true
    ∧ cache_valid false (some c) (c.timestamp + 43200) = false
    ∧ cache_valid false (some c) (c.timestamp + 43260) = false
    ∧ cache_valid force none clock.now = false
    ∧ cache_valid true cacheFile clock.now = false
    ∧ (cache_valid force (some c) clock.now = true →
        get_fresh_data force (some c) fetchedNews clock = (c, []))
    ∧ (cache_valid force cacheFile clock.now = false →
        get_fresh_data force cacheFile fetchedNews clock =
          (mkFreshCache fetchedNews clock,
           [FileWrite.cacheW (mkFreshCache fetchedNews clock)]))
    ∧ (mkFreshCache fetchedNews clock).timestamp = clock.now := by
  refine ⟨rfl, ?_, ?_, ?_, rfl, ?_, ?_, ?_, rfl⟩
  · simp only [cache_valid, Bool.not_false, Bool.true_and, decide_eq_true_eq]
    omega
  · simp only [cache_valid, Bool.not_false, Bool.true_and, decide_eq_false_iff_not]
    omega
  · simp only [cache_valid, Bool.not_false, Bool.true_and, decide_eq_false_iff_not]
    omega
  · cases cacheFile <;> simp [cache_valid]
  · intro h
    simp only [get_fresh_data, h, if_true, Option.getD_some]
  · intro h
    simp only [get_fresh_data, h, Bool.false_eq_true, if_false]

/-- C4 witness: a cache stamped at time 0 read at 43140s (11h59m) is
returned unchanged with no write; read at exactly 43200s (12h) it is
replaced by a fresh cache stamped 43200 (a cache-file write). -/
theorem c4_cache_freshness_witness :
    get_fresh_data false (some ⟨0, [], [], ""⟩) [] ⟨43140, 0, "", "", ""⟩
      = (⟨0, [], [], ""⟩, [])
    ∧ get_fresh_data false (some ⟨0, [], [], ""⟩) [] ⟨43200, 0, "", "", ""⟩
      = (mkFreshCache [] ⟨43200, 0, "", "", ""⟩,
         [FileWrite.cacheW (mkFreshCache [] ⟨43200, 0, "", "", ""⟩)]) :=
  ⟨(c4_cache_freshness false (some ⟨0, [], [], ""⟩) [] ⟨43140, 0, "", "", ""⟩
      ⟨0, [], [], ""⟩).2.2.2.2.2.2.1 (by decide),
   (c4_cache_freshness false (some ⟨0, [], [], ""⟩) [] ⟨43200, 0, "", "", ""⟩
      ⟨0, [], [], ""⟩).2.2.2.2.2.2.2.1 (by decide)⟩

/-! ## C10: missing posts directory -/

/-- C10: with no posts directory, generate_manifest still succeeds,
creating the directory and writing a manifest with count 0 and an empty
posts array, while patch_posts.py main treats the missing directory as
fatal (exit code 1). -/
theorem c10_missing_posts_dir (nowIso : String) (applyFlag : Bool) :
    (generate_manifest none nowIso).1.count = 0
    ∧ (generate_manifest none nowIso).1.posts = []
    ∧ (generate_manifest none nowIso).2 =
        [⟨["posts", "posts.json"],
          renderManifest { generated := nowIso, count := 0, posts := [] }⟩]
    ∧ patch_main applyFlag none = PatchOutcome.fatal 1 :=
  ⟨rfl, rfl, rfl, rfl⟩

/-- C2 (evaluation at the failing input): with the rotation at "salaries"
(category index 2) and that category's variations exhausted, the
all-variations-used fallback advances category_rotation twice, so the
selection returns "job-search" (index 4) and leaves the rotation at 5 —
skipping "career-paths" (index 3) even though its first variation is
unpublished and would have been available.  The claim (and the comment in
the Python source, "move to next category") requires the rotation to
advance by one to career-paths. -/
theorem c2_fallback_skips_category :
    ((select_evergreen_topic 10 exhaustedSalariesState octClock).map
        (fun p => (p.1.category, p.2.category_rotation)))
      = some ("job-search", 5)
    ∧ topicCategories.get? 2 = some "salaries"
    ∧ topicCategories.get? 3 = some "career-paths"
    ∧ exhaustedSalariesState.published_posts.contains
        (get_content_hash "SOC Analyst: Complete Career Guide") = false := by
  refine ⟨?_, rfl, rfl, ?_⟩ <;> decide

/-! ## C6: dynamic titles from the fixed cache -/

/-- C6 (counterexample): with the cache's trending list
[("ransomware",5), ("AI",3)] and nothing recently used, picking the
market_update template (index 2) returns a candidate whose title is
"Security Job Market: October 2026 Update" — a title that contains
neither "Ransomware" nor "Ai", contradicting the claim that every
returned title contains one of them. -/
theorem c6_market_update_counterexample :
    ((select_dynamic_topic initState
        ⟨0, [], [("ransomware", 5), ("AI", 3)], ""⟩ 0 2 octClock).map
          (fun p => p.1.title))
      = some "Security Job Market: October 2026 Update"
    ∧ pyContains "Security Job Market: October 2026 Update" "Ransomware" = false
    ∧ pyContains "Security Job Market: October 2026 Update" "Ai" = false := by
  refine ⟨?_, ?_, ?_⟩ <;> decide

/-- C6 (amended): for every call of select_dynamic_topic with a cache
whose trending list is [("ransomware",5), ("AI",3)], a returned
candidate's title comes from one of the four fixed dynamic template
formats and is never empty; it contains "Ransomware" or "Ai" whenever the
chosen template is not market_update — the market_update template yields
"Security Job Market: month year Update", which contains neither. -/
theorem c6_amended_dynamic_title (state : SchedulerState) (pickTrend pickTmpl : Nat)
    (clock : Clock) (news : List NewsItem) (ts : Int) (fd : String)
    (c : TopicCandidate) (st' : SchedulerState)
    (h : select_dynamic_topic state ⟨ts, news, [("ransomware", 5), ("AI", 3)], fd⟩
          pickTrend pickTmpl clock = some (c, st')) :
    c.title ≠ ""
    ∧ (c.title = "What Ransomware Means for Your Security Career"
      ∨ c.title = "What Ai Means for Your Security Career"
      ∨ c.title = "Ransomware Skills Are in Demand—Here's Why"
      ∨ c.title = "Ai Skills Are in Demand—Here's Why"
      ∨ c.title = "Security Job Market: " ++ clock.month ++ " " ++ clock.year ++ " Update"
      ∨ c.title = "The Rise of Ransomware—And the Careers Fighting It"
      ∨ c.title = "The Rise of Ai—And the Careers Fighting It")
    ∧ (dynamicTemplateKeys.get? pickTmpl ≠ some "market_update" →
        (pyContains c.title "Ransomware" = true ∨ pyContains c.title "Ai" = true)) := by
  unfold select_dynamic_topic at h
  split at h
  · exact absurd h (by simp)
  · split at h
    · exact absurd h (by simp)
    · rename_i tk tc heq
      have hmem : (tk, tc) ∈ [("ransomware", (5 : Nat)), ("AI", 3)] :=
        List.mem_of_mem_filter (List.mem_of_mem_take (List.get?_mem heq))
      have htk : tk = "ransomware" ∨ tk = "AI" := by
        simp only [List.mem_cons, List.mem_singleton, Prod.mk.injEq] at hmem
        rcases hmem with ⟨h1, _⟩ | ⟨h1, _⟩ | hf
        · exact Or.inl h1
        · exact Or.inr h1
        · exact absurd hf (List.not_mem_nil _)
      split at h
      · exact absurd h (by simp)
      · rename_i tkey heq2
        split at h
        · exact absurd h (by simp)
        · rename_i title subtitle heq3
          split at h
          · exact absurd h (by simp)
          · injection h with h1
            injection h1 with hc hs
            unfold dynamicFormat at heq3
            split at heq3
            · -- news_reaction
              injection heq3 with h2
              injection h2 with ht hsub
              rcases htk with rfl | rfl <;> rw [← hc] <;> dsimp only <;> rw [← ht]
              · exact ⟨by decide, Or.inl (by decide), fun _ => Or.inl (by decide)⟩
              · exact ⟨by decide, Or.inr (Or.inl (by decide)),
                  fun _ => Or.inr (by decide)⟩
            · split at heq3
              · -- trending_skill
                injection heq3 with h2
                injection h2 with ht hsub
                rcases htk with rfl | rfl <;> rw [← hc] <;> dsimp only <;> rw [← ht]
                · exact ⟨by decide, Or.inr (Or.inr (Or.inl (by decide))),
                    fun _ => Or.inl (by decide)⟩
                · exact ⟨by decide, Or.inr (Or.inr (Or.inr (Or.inl (by decide)))),
                    fun _ => Or.inr (by decide)⟩
              · split at heq3
                · -- market_update
                  rename_i hk3
                  injection heq3 with h2
                  injection h2 with ht hsub
                  rw [← hc]; dsimp only; rw [← ht]
                  refine ⟨?_, Or.inr (Or.inr (Or.inr (Or.inr (Or.inl rfl)))), ?_⟩
                  · intro he
                    have hd := congrArg String.data he
                    simp only [String.data_append] at hd
                    exact absurd (List.append_eq_nil.mp
                      (List.append_eq_nil.mp (List.append_eq_nil.mp
                        (List.append_eq_nil.mp hd).1).1).1).1 (by decide)
                  · intro hne
                    exact absurd (hk3 ▸ heq2) hne
                · split at heq3
                  · -- threat_career
                    injection heq3 with h2
                    injection h2 with ht hsub
                    rcases htk with rfl | rfl <;> rw [← hc] <;> dsimp only <;> rw [← ht]
                    · exact ⟨by decide,
                        Or.inr (Or.inr (Or.inr (Or.inr (Or.inr (Or.inl (by decide)))))),
                        fun _ => Or.inl (by decide)⟩
                    · exact ⟨by decide,
                        Or.inr (Or.inr (Or.inr (Or.inr (Or.inr (Or.inr (by decide)))))),
                        fun _ => Or.inr (by decide)⟩
                  · -- no template matched
                    exact absurd heq3 (by simp)

/-- C6 amended claim, witnessed at a concrete call (template index 0,
trend index 0, October 2026 clock). -/
theorem c6_amended_dynamic_title_witness :
    c6WitnessCand.title ≠ ""
    ∧ (c6WitnessCand.title = "What Ransomware Means for Your Security Career"
      ∨ c6WitnessCand.title = "What Ai Means for Your Security Career"
      ∨ c6WitnessCand.title = "Ransomware Skills Are in Demand—Here's Why"
      ∨ c6WitnessCand.title = "Ai Skills Are in Demand—Here's Why"
      ∨ c6WitnessCand.title =
          "Security Job Market: " ++ octClock.month ++ " " ++ octClock.year ++ " Update"
      ∨ c6WitnessCand.title = "The Rise of Ransomware—And the Careers Fighting It"
      ∨ c6WitnessCand.title = "The Rise of Ai—And the Careers Fighting It")
    ∧ (dynamicTemplateKeys.get? 0 ≠ some "market_update" →
        (pyContains c6WitnessCand.title "Ransomware" = true
          ∨ pyContains c6WitnessCand.title "Ai" = true)) :=
  c6_amended_dynamic_title initState 0 0 octClock [] 0 "" c6WitnessCand
    { initState with recent_topics := ["ransomware"] } (by decide)

/-- The catalog sanity check holds by evaluation. -/
theorem catalogTitlesClean_eq : catalogTitlesClean = true := by decide

/-- A variation accepted by the scan loop has an unpublished hash and
belongs to the scanned variation list. -/
theorem scanVariations_spec (vars : List Variation) (vi : Nat) (pub : List String) :
    ∀ rem att i v, scanVariations vars vi pub rem att = some (i, v) →
      pub.contains (get_content_hash v.title) = false ∧ v ∈ vars := by
  intro rem
  induction rem with
  | zero => intro att i v h; exact absurd h (by simp [scanVariations])
  | succ n ih =>
    intro att i v h
    unfold scanVariations at h
    split at h
    · exact absurd h (by simp)
    · rename_i v0 hv0
      split at h
      · exact ih (att + 1) i v h
      · rename_i hcon
        injection h with h1
        injection h1 with hi hv
        subst hv
        exact ⟨Bool.not_eq_true _ ▸ hcon, List.get?_mem hv0⟩

/-- Membership extraction through the find?/Option.map/getD/get? chain of
select_evergreen_topic, kept abstract in the catalog list so that no
evaluation of the catalog literal is attempted. -/
theorem groups_get_mem (q : String × List TopicGroup → Bool)
    (L : List (String × List TopicGroup)) (i : Nat) (g : TopicGroup)
    (h : ((Option.map (fun p => p.2) (L.find? q)).getD []).get? i = some g) :
    ∃ pr, pr ∈ L ∧ g ∈ pr.2 := by
  cases hf : L.find? q with
  | none => rw [hf] at h; exact absurd h (by simp)
  | some pr =>
    rw [hf] at h
    exact ⟨pr, List.mem_of_find?_eq_some hf, List.get?_mem (by simpa using h)⟩

/-- Every candidate returned by evergreen selection has a hash outside the
published history of the state it was called on, and that hash is the
content hash of the candidate's own title (the year substitution never
fires on the actual catalog). -/
theorem select_evergreen_spec :
    ∀ (fuel : Nat) (st : SchedulerState) (ck : Clock) (c : TopicCandidate)
      (st' : SchedulerState),
      select_evergreen_topic fuel st ck = some (c, st') →
      st.published_posts.contains c.title_hash = false
      ∧ c.title_hash = get_content_hash c.title := by
  intro fuel
  induction fuel with
  | zero => intro st ck c st' h; exact absurd h (by simp [select_evergreen_topic])
  | succ n ih =>
    intro st ck c st' h
    unfold select_evergreen_topic at h
    dsimp only at h
    split at h
    · exact absurd h (by simp)
    · rename_i topic_group heq
      split at h
      · rename_i idx v heq2
        injection h with h1
        injection h1 with hc hs
        have hsv := scanVariations_spec _ _ _ _ _ _ _ heq2
        obtain ⟨pr, hpr, htg⟩ := groups_get_mem _ _ _ _ heq
        have hclean : (pyContains (pyLower v.title) "\x7byear\x7d"
            || pyContains v.title "2025") = false := by
          have hall := catalogTitlesClean_eq
          unfold catalogTitlesClean at hall
          rw [List.all_eq_true] at hall
          have h1 := hall pr hpr
          rw [List.all_eq_true] at h1
          have h2 := h1 topic_group htg
          rw [List.all_eq_true] at h2
          have h3 := h2 v hsv.2
          simpa using h3
        have hch := congrArg TopicCandidate.title_hash hc
        dsimp only at hch
        have hct := congrArg TopicCandidate.title hc
        dsimp only at hct
        constructor
        · rw [← hch]
          exact hsv.1
        · rw [← hch, ← hct, hclean]
          simp
      · have hrec := ih _ ck c st' h
        exact hrec

/-- Every candidate returned by dynamic selection has a hash outside the
published history, equal to the content hash of its own title. -/
theorem select_dynamic_spec (state : SchedulerState) (live : DataCache)
    (pickTrend pickTmpl : Nat) (clock : Clock) (c : TopicCandidate)
    (st' : SchedulerState)
    (h : select_dynamic_topic state live pickTrend pickTmpl clock = some (c, st')) :
    state.published_posts.contains c.title_hash = false
    ∧ c.title_hash = get_content_hash c.title := by
  unfold select_dynamic_topic at h
  split at h
  · exact absurd h (by simp)
  · split at h
    · exact absurd h (by simp)
    · rename_i tk tc heq
      split at h
      · exact absurd h (by simp)
      · rename_i tkey heq2
        split at h
        · exact absurd h (by simp)
        · rename_i title subtitle heq3
          split at h
          · exact absurd h (by simp)
          · rename_i hcon
            injection h with h1
            injection h1 with hc hs
            have hch := congrArg TopicCandidate.title_hash hc
            dsimp only at hch
            have hct := congrArg TopicCandidate.title hc
            dsimp only at hct
            constructor
            · rw [← hch]
              exact Bool.not_eq_true _ ▸ hcon
            · rw [← hch, ← hct]

/-- select_next_topic inherits both guarantees from whichever selection
path produced the candidate. -/
theorem select_next_spec (roll : Bool) (pickTrend pickTmpl fuel : Nat)
    (state : SchedulerState) (live : Option DataCache) (clock : Clock)
    (c : TopicCandidate) (st' : SchedulerState)
    (h : select_next_topic roll pickTrend pickTmpl fuel state live clock
          = some (c, st')) :
    state.published_posts.contains c.title_hash = false
    ∧ c.title_hash = get_content_hash c.title := by
  unfold select_next_topic at h
  dsimp only at h
  split at h
  · rename_i r heq
    injection h with h1
    subst h1
    split at heq
    · split at heq
      · exact select_dynamic_spec _ _ _ _ _ _ _ heq
      · exact absurd heq (by simp)
    · exact absurd heq (by simp)
  · exact select_evergreen_spec _ _ _ _ _ h

/-! ## C1: no republished hash is ever selected again -/

/-- C1: for every scheduler state, live-data cache and random outcome,
topic selection — select_next_topic, and likewise select_dynamic_topic and
select_evergreen_topic — never returns a candidate whose title_hash is in
the state's published_posts list: dynamic selection returns nothing for a
published hash and evergreen selection skips published variations. -/
theorem c1_selection_never_republishes (roll : Bool)
    (pickTrend pickTmpl fuel : Nat) (state : SchedulerState)
    (live : Option DataCache) (l : DataCache) (clock : Clock) :
    ((select_dynamic_topic state l pickTrend pickTmpl clock).elim True
      (fun p => state.published_posts.contains p.1.title_hash = false))
    ∧ ((select_evergreen_topic fuel state clock).elim True
      (fun p => state.published_posts.contains p.1.title_hash = false))
    ∧ ((select_next_topic roll pickTrend pickTmpl fuel state live clock).elim True
      (fun p => state.published_posts.contains p.1.title_hash = false)) := by
  refine ⟨?_, ?_, ?_⟩
  · cases hd : select_dynamic_topic state l pickTrend pickTmpl clock with
    | none => trivial
    | some p => exact (select_dynamic_spec _ _ _ _ _ p.1 p.2 (by rw [hd])).1
  · cases hd : select_evergreen_topic fuel state clock with
    | none => trivial
    | some p => exact (select_evergreen_spec _ _ _ p.1 p.2 (by rw [hd])).1
  · cases hd : select_next_topic roll pickTrend pickTmpl fuel state live clock with
    | none => trivial
    | some p => exact (select_next_spec _ _ _ _ _ _ _ p.1 p.2 (by rw [hd])).1

/-! ## C9: the title hash discipline -/

/-- C9: a title hash is the first 12 hex digits of the MD5 of the
lowercased (UTF-8) title, so titles differing only in case collide; and
every candidate returned by topic selection carries the hash of its own
title (year placeholder substitution is applied at selection time, and on
the actual catalog never alters a title). -/
theorem c9_title_hash_discipline (t1 t2 : String) (roll : Bool)
    (pickTrend pickTmpl fuel : Nat) (state : SchedulerState)
    (live : Option DataCache) (clock : Clock) (c : TopicCandidate)
    (st' : SchedulerState)
    (hlow : pyLower t1 = pyLower t2)
    (h : select_next_topic roll pickTrend pickTmpl fuel state live clock
          = some (c, st')) :
    get_content_hash t1 = get_content_hash t2
    ∧ get_content_hash t1 = (md5Hex (utf8Bytes (pyLower t1))).take 12
    ∧ c.title_hash = get_content_hash c.title := by
  refine ⟨?_, rfl, (select_next_spec _ _ _ _ _ _ _ _ _ h).2⟩
  unfold get_content_hash
  rw [hlow]

/-- C9 witnessed at a concrete call: "ABC" and "abc" share a hash, the
hash is the truncated MD5 hex digest, and the first candidate selected
from the initial state hashes its own title. -/
theorem c9_title_hash_discipline_witness :
    get_content_hash "ABC" = get_content_hash "abc"
    ∧ get_content_hash "ABC" = (md5Hex (utf8Bytes (pyLower "ABC"))).take 12
    ∧ c9WitnessCand.title_hash = get_content_hash c9WitnessCand.title :=
  c9_title_hash_discipline "ABC" "abc" false 0 0 1 initState none octClock
    c9WitnessCand c9WitnessState (by decide) (by decide)

/-- get_fresh_data either writes nothing (cache hit) or writes exactly the
fresh replacement cache. -/
theorem get_fresh_data_writes (force : Bool) (cacheFile : Option DataCache)
    (fetchedNews : List NewsItem) (clock : Clock) :
    (get_fresh_data force cacheFile fetchedNews clock).2 = []
    ∨ (get_fresh_data force cacheFile fetchedNews clock).2
        = [FileWrite.cacheW (mkFreshCache fetchedNews clock)] := by
  unfold get_fresh_data
  split
  · exact Or.inl rfl
  · exact Or.inr rfl

/-- C5: a preview run writes neither the scheduler state file nor any post
file (at most the data cache); and in every run, preview or not, the state
file is written only after the post file has been written, so a run that
fails before saving the post never advances the persisted state. -/
theorem c5_preview_and_commit_order (force refresh roll preview : Bool)
    (pickTrend pickTmpl fuel : Nat) (state : SchedulerState)
    (cacheFile : Option DataCache) (fetchedNews : List NewsItem)
    (gen : TopicCandidate → String → String → PostFile) (clock : Clock) :
    ((generate_scheduled_post true force refresh roll pickTrend pickTmpl fuel
        state cacheFile fetchedNews gen clock).2.all (fun w => !isPersistW w) = true)
    ∧ (stateAfterPostOk false (generate_scheduled_post preview force refresh roll
        pickTrend pickTmpl fuel state cacheFile fetchedNews gen clock).2 = true) := by
  constructor
  · unfold generate_scheduled_post
    dsimp only
    split
    · rfl
    · rcases get_fresh_data_writes refresh cacheFile fetchedNews clock with hw | hw <;>
        rw [hw] <;> split <;> (try split) <;> simp_all [isPersistW, stateAfterPostOk]
  · unfold generate_scheduled_post
    dsimp only
    split
    · rfl
    · rcases get_fresh_data_writes refresh cacheFile fetchedNews clock with hw | hw <;>
        rw [hw] <;> split <;> (try split) <;> simp_all [isPersistW, stateAfterPostOk]

/-! ## C8: patch script dry-run versus --apply -/

/-- Each patch rule either leaves its input unchanged or appends exactly
one change message. -/
theorem patchStep_mono :
    (∀ p, patchStep1 p = p ∨ ∃ a, (patchStep1 p).2 = p.2 ++ [a])
    ∧ (∀ p, patchStep2 p = p ∨ ∃ a, (patchStep2 p).2 = p.2 ++ [a])
    ∧ (∀ p, patchStep3 p = p ∨ ∃ a, (patchStep3 p).2 = p.2 ++ [a])
    ∧ (∀ p, patchStep4 p = p ∨ ∃ a, (patchStep4 p).2 = p.2 ++ [a])
    ∧ (∀ p, patchStep5 p = p ∨ ∃ a, (patchStep5 p).2 = p.2 ++ [a]) := by
  refine ⟨?_, ?_, ?_, ?_, ?_⟩
  · intro p
    unfold patchStep1
    split
    · exact Or.inr ⟨_, rfl⟩
    · exact Or.inl rfl
  · intro p
    unfold patchStep2
    split
    · exact Or.inr ⟨_, rfl⟩
    · exact Or.inl rfl
  · intro p
    unfold patchStep3
    split
    · exact Or.inr ⟨_, rfl⟩
    · exact Or.inl rfl
  · intro p
    unfold patchStep4
    split
    · exact Or.inr ⟨_, rfl⟩
    · exact Or.inl rfl
  · intro p
    unfold patchStep5
    split
    · exact Or.inr ⟨_, rfl⟩
    · exact Or.inl rfl

/-- A rule that reports no change made none. -/
theorem patchStep_nil_id (step : String × List String → String × List String)
    (hs : ∀ p, step p = p ∨ ∃ a, (step p).2 = p.2 ++ [a])
    (p : String × List String) (h : (step p).2 = []) : step p = p ∧ p.2 = [] := by
  rcases hs p with he | ⟨a, ha⟩
  · exact ⟨he, he ▸ h⟩
  · rw [ha] at h
    exact absurd h (by simp)

/-- The returned change list is empty exactly when the patched text equals
the original, so the text != original write condition coincides with a
non-empty reported change list. -/
theorem patch_file_isEmpty_eq (c : String) :
    (patch_file c).2.isEmpty = ((patch_file c).1 == c) := by
  unfold patch_file
  dsimp only
  split
  · rename_i hne
    have hbe : ((patchStep5 (patchStep4 (patchStep3 (patchStep2 (patchStep1 (c, [])))))).1 == c)
        = false := beq_eq_false_iff_ne.mpr hne
    rw [hbe]
    cases hE : (patchStep5 (patchStep4 (patchStep3 (patchStep2 (patchStep1 (c, [])))))).2.isEmpty
    · rfl
    · exfalso
      have h2 : (patchStep5 (patchStep4 (patchStep3 (patchStep2 (patchStep1 (c, [])))))).2 = [] := by
        simpa [List.isEmpty_iff] using hE
      obtain ⟨he5, h24⟩ := patchStep_nil_id patchStep5 patchStep_mono.2.2.2.2 _ h2
      obtain ⟨he4, h23⟩ := patchStep_nil_id patchStep4 patchStep_mono.2.2.2.1 _ h24
      obtain ⟨he3, h22⟩ := patchStep_nil_id patchStep3 patchStep_mono.2.2.1 _ h23
      obtain ⟨he2, h21⟩ := patchStep_nil_id patchStep2 patchStep_mono.2.1 _ h22
      obtain ⟨he1, h20⟩ := patchStep_nil_id patchStep1 patchStep_mono.1 _ h21
      rw [he5, he4, he3, he2, he1] at hne
      exact hne rfl
  · simp

/-- C8: without --apply the patch run reports the files that would change
and writes nothing (the directory is unchanged); with --apply it writes
exactly the html files whose patch_file change list is non-empty — their
content replaced by the patched text — and no others, reporting the same
set of files as the dry run. -/
theorem c8_dry_run_and_apply (dir : List SiteFile) :
    patch_main false (some dir) = PatchOutcome.done dir (patchChangedFiles dir)
    ∧ patch_main true (some dir) = PatchOutcome.done
        (dir.map (fun f =>
          if strEndsWith (fileName f) ".html" && !(patch_file f.content).2.isEmpty then
            ⟨f.parts, (patch_file f.content).1⟩
          else f))
        (patchChangedFiles dir) := by
  constructor
  · unfold patch_main
    dsimp only
    split
    · rename_i hEmpty
      have hnil : dir.filter (fun f => strEndsWith (fileName f) ".html") = [] := by
        simpa [List.isEmpty_iff] using hEmpty
      unfold patchChangedFiles
      rw [hnil]
      rfl
    · congr 1
      rw [List.map_congr_left (g := fun f => f)]
      · simp
      · intro f _
        simp
  · unfold patch_main
    dsimp only
    split
    · rename_i hEmpty
      have hnil : dir.filter (fun f => strEndsWith (fileName f) ".html") = [] := by
        simpa [List.isEmpty_iff] using hEmpty
      have hall : ∀ f ∈ dir, strEndsWith (fileName f) ".html" = false := by
        intro f hf
        by_contra hx
        have hmem : f ∈ dir.filter (fun f => strEndsWith (fileName f) ".html") := by
          rw [List.mem_filter]
          refine ⟨hf, ?_⟩
          revert hx
          cases strEndsWith (fileName f) ".html" <;> simp
        rw [hnil] at hmem
        exact absurd hmem (List.not_mem_nil f)
      have h1 : patchChangedFiles dir = [] := by
        unfold patchChangedFiles
        rw [hnil]
        rfl
      rw [h1]
      congr 1
      rw [List.map_congr_left (g := fun f => f)]
      · simp
      · intro f hf
        rw [hall f hf]
        simp
    · unfold patchChangedFiles
      refine congrArg₂ PatchOutcome.done ?_ rfl
      apply List.map_congr_left
      intro f _
      rw [show (!!true) = true from rfl, Bool.true_and, patch_file_isEmpty_eq]
      rfl

/-! ## C7: manifest rebuild idempotence -/

/-- extract_metadata always emits featured = false; the flag is set only
by the post-sort head marking. -/
theorem extract_metadata_featured (f : SiteFile) :
    (extract_metadata f).featured = false := rfl

/-- Marking the head as featured does not disturb date ordering. -/
theorem markFeatured_pairwise (l : List PostMeta)
    (hl : List.Pairwise (fun a b : PostMeta => b.date ≤ a.date) l) :
    List.Pairwise (fun a b : PostMeta => b.date ≤ a.date) (markFeatured l) := by
  cases l with
  | nil => exact List.Pairwise.nil
  | cons h t =>
    rcases List.pairwise_cons.mp hl with ⟨h1, h2⟩
    exact List.pairwise_cons.mpr ⟨fun b hb => h1 b hb, h2⟩

/-- On a list of unflagged posts, head marking produces exactly one
featured flag, on the head. -/
theorem markFeatured_map_featured (l : List PostMeta)
    (hl : ∀ b ∈ l, b.featured = false) :
    (markFeatured l).map (fun p => p.featured)
      = (if (markFeatured l).isEmpty then []
         else true :: List.replicate ((markFeatured l).length - 1) false) := by
  cases l with
  | nil => rfl
  | cons h t =>
    have ht : t.map (fun p => p.featured) = List.replicate t.length false := by
      have hrep : t.map (fun p => p.featured)
          = List.replicate (t.map (fun p => p.featured)).length false := by
        apply List.eq_replicate_of_mem
        intro b hb
        obtain ⟨a, ha, rfl⟩ := List.mem_map.mp hb
        exact hl a (List.mem_cons_of_mem _ ha)
      simpa using hrep
    simp [markFeatured, ht]

/-- scan_posts output is sorted by date descending. -/
theorem scan_posts_sorted (dir : List SiteFile) :
    List.Pairwise (fun a b : PostMeta => b.date ≤ a.date) (scan_posts dir) := by
  unfold scan_posts
  exact markFeatured_pairwise _ (List.sorted_insertionSort _ _)

/-- scan_posts flags the newest post, and only it, as featured. -/
theorem scan_posts_featured (dir : List SiteFile) :
    (scan_posts dir).map (fun p => p.featured)
      = (if (scan_posts dir).isEmpty then []
         else true :: List.replicate ((scan_posts dir).length - 1) false) := by
  unfold scan_posts
  apply markFeatured_map_featured
  intro b hb
  rw [List.mem_insertionSort] at hb
  obtain ⟨a, _, rfl⟩ := List.mem_map.mp hb
  exact extract_metadata_featured a

/-- Updating a file that is not *.html leaves the html filter of the map
branch of updateFile unchanged. -/
theorem filter_map_update_nonhtml (t : List SiteFile) (p : List String) (x : String)
    (hp : strEndsWith (p.getLastD "") ".html" = false) :
    (t.map (fun f => if (f.parts == p) = true then ⟨p, x⟩ else f)).filter
        (fun f => strEndsWith (fileName f) ".html")
      = t.filter (fun f => strEndsWith (fileName f) ".html") := by
  induction t with
  | nil => rfl
  | cons a t ih =>
    by_cases ha : (a.parts == p) = true
    · have hap : a.parts = p := by simpa using ha
      have hfa : strEndsWith (fileName a) ".html" = false := by
        rw [fileName, hap]
        exact hp
      have hfn : strEndsWith (fileName ⟨p, x⟩) ".html" = false := hp
      have ihs : List.filter (fun f => strEndsWith (fileName f) ".html")
          (List.map (fun f => if f.parts = p then ⟨p, x⟩ else f) t)
          = List.filter (fun f => strEndsWith (fileName f) ".html") t := by
        simpa using ih
      simp [hap, hfa, hfn, ihs]
    · have hnp : ¬a.parts = p := by simpa using ha
      have ihs : List.filter (fun f => strEndsWith (fileName f) ".html")
          (List.map (fun f => if f.parts = p then ⟨p, x⟩ else f) t)
          = List.filter (fun f => strEndsWith (fileName f) ".html") t := by
        simpa using ih
      simp [List.filter_cons, hnp, ihs]

/-- Writing a non-html file (such as posts.json) does not change the set
of html files. -/
theorem filter_updateFile_nonhtml (d : List SiteFile) (p : List String) (x : String)
    (hp : strEndsWith (p.getLastD "") ".html" = false) :
    (updateFile d p x).filter (fun f => strEndsWith (fileName f) ".html")
      = d.filter (fun f => strEndsWith (fileName f) ".html") := by
  unfold updateFile
  split
  · exact filter_map_update_nonhtml d p x hp
  · rw [List.filter_append]
    have hfn : strEndsWith (fileName ⟨p, x⟩) ".html" = false := hp
    simp [hfn]

/-- Scanning is unaffected by the manifest file the previous run wrote. -/
theorem scan_posts_updateFile_json (d : List SiteFile) (x : String) :
    scan_posts (updateFile d ["posts", "posts.json"] x) = scan_posts d := by
  unfold scan_posts
  rw [filter_updateFile_nonhtml d ["posts", "posts.json"] x (by decide)]

/-- C7: running generate_manifest twice over an unchanged posts directory
(the second run scanning exactly what the first run left on disk) yields
the same posts array and count — the rendered JSON is identical once the
generated timestamp is equated — and the manifest's posts are sorted by
date descending with the newest post, and only it, flagged featured. -/
theorem c7_manifest_idempotent (dir : List SiteFile) (t1 t2 : String) :
    (generate_manifest (some (generate_manifest (some dir) t1).2) t2).1.posts
        = (generate_manifest (some dir) t1).1.posts
    ∧ (generate_manifest (some (generate_manifest (some dir) t1).2) t2).1.count
        = (generate_manifest (some dir) t1).1.count
    ∧ renderManifest
        { (generate_manifest (some (generate_manifest (some dir) t1).2) t2).1 with
          generated := t1 }
        = renderManifest (generate_manifest (some dir) t1).1
    ∧ List.Pairwise (fun a b : PostMeta => b.date ≤ a.date)
        (generate_manifest (some dir) t1).1.posts
    ∧ (generate_manifest (some dir) t1).1.posts.map (fun p => p.featured)
        = (if (generate_manifest (some dir) t1).1.posts.isEmpty then []
           else true :: List.replicate
             ((generate_manifest (some dir) t1).1.posts.length - 1) false) := by
  have hposts : (generate_manifest (some (generate_manifest (some dir) t1).2) t2).1.posts
      = (generate_manifest (some dir) t1).1.posts := by
    show scan_posts (updateFile dir ["posts", "posts.json"] _) = scan_posts dir
    exact scan_posts_updateFile_json dir _
  have hcount : (generate_manifest (some (generate_manifest (some dir) t1).2) t2).1.count
      = (generate_manifest (some dir) t1).1.count := congrArg List.length hposts
  refine ⟨hposts, hcount, ?_, scan_posts_sorted dir, scan_posts_featured dir⟩
  have hm : ({ (generate_manifest (some (generate_manifest (some dir) t1).2) t2).1 with
      generated := t1 } : Manifest) = (generate_manifest (some dir) t1).1 := by
    calc ({ (generate_manifest (some (generate_manifest (some dir) t1).2) t2).1 with
        generated := t1 } : Manifest)
        = { generated := t1,
            count := (generate_manifest (some (generate_manifest (some dir) t1).2) t2).1.count,
            posts := (generate_manifest (some (generate_manifest (some dir) t1).2) t2).1.posts } := rfl
      _ = { generated := t1,
            count := (generate_manifest (some dir) t1).1.count,
            posts := (generate_manifest (some dir) t1).1.posts } := by rw [hposts, hcount]
      _ = (generate_manifest (some dir) t1).1 := rfl
  exact congrArg renderManifest hm
